import Mathlib

/-!
Verification of the Credential Lifecycle Manager of `port-pr-chart`
(`src/backend/services/tokenManager.js`), as a shallow embedding.

Modelling conventions:
* A JavaScript value that is either a string or `undefined` (an environment
  variable, `this.currentToken`, a token slot) is an `Option String`;
  JavaScript truthiness of such a value (`if (x)`, `x && ...`) is `truthy`:
  `none` and `some ""` are falsy, every other string is truthy.
* The network is abstracted per rotation attempt: `httpGet tok` is the raw
  outcome of the axios GET performed with bearer token `tok` (`none` =
  transport failure or timeout, `some status` = an HTTP response), and
  `genHttp` is the raw outcome of the axios POST to the token-issuance
  endpoint (`some (status, accessToken)` carries the response body's
  `accessToken` field per the remote contract). axios resolves only for
  2xx statuses and rejects otherwise; `axiosGet`/`axiosPost` encode that.
* A thrown JavaScript exception is an `Except.error`; `try`/`catch` is a
  `match` on the `Except` value. Timestamps (`Date.now()`) are `Nat`
  milliseconds supplied by the attempt.
* Each operation also returns the list of network calls it performed, in
  order, so that reentrancy ("no network call") and probe-order properties
  can be stated.
-/

/-- The `this.tokens` record of the `TokenManager` constructor:
the three statically configured bearer tokens. -/
structure Tokens where
  primary : Option String
  secondary : Option String
  service : Option String
deriving DecidableEq, Repr

/-- The `this.clientCredentials` record: credentials for programmatic
token issuance. -/
structure ClientCredentials where
  clientId : Option String
  clientSecret : Option String
deriving DecidableEq, Repr

/-- The mutable fields of a `TokenManager` instance together with its
configuration (the JS class holds both on `this`). -/
structure TokenManager where
  tokens : Tokens
  clientCredentials : ClientCredentials
  currentToken : Option String
  lastRotation : Nat
  rotationInterval : Nat
  isRotating : Bool
deriving DecidableEq, Repr

/-- The five environment variables read by the constructor. -/
structure Env where
  PORT_API_TOKEN_PRIMARY : Option String
  PORT_API_TOKEN_SECONDARY : Option String
  PORT_SERVICE_TOKEN : Option String
  PORT_CLIENT_ID : Option String
  PORT_CLIENT_SECRET : Option String
deriving DecidableEq, Repr

/-- JavaScript truthiness of a string-or-undefined value: `undefined` and
the empty string are falsy. -/
def truthy : Option String → Bool
  | none => false
  | some s => s != ""

/-- The `TokenManager` constructor (logging aside): loads the environment,
seeds `currentToken` with the primary token, stamps `lastRotation` with the
construction time and fixes the 2.5 hour rotation interval
(`2.5 * 60 * 60 * 1000` ms). The fire-and-forget initial generation it may
start is modelled as a separate process step (`initGenStep`). -/
def mkTokenManager (env : Env) (now0 : Nat) : TokenManager :=
  { tokens :=
      { primary := env.PORT_API_TOKEN_PRIMARY
        secondary := env.PORT_API_TOKEN_SECONDARY
        service := env.PORT_SERVICE_TOKEN }
    clientCredentials :=
      { clientId := env.PORT_CLIENT_ID
        clientSecret := env.PORT_CLIENT_SECRET }
    currentToken := env.PORT_API_TOKEN_PRIMARY
    lastRotation := now0
    rotationInterval := 9000000
    isRotating := false }

/-- One outbound network call performed during an attempt, with its
observed outcome: a token validation (GET) or a token issuance (POST;
`some t` = a token `t` was issued, `none` = the issuance threw). -/
inductive NetCall where
  | validateCall (token : String) (ok : Bool)
  | generateCall (issued : Option String)
deriving DecidableEq, Repr

/-- The per-attempt network oracle and clock: `httpGet tok` is the raw
outcome of the GET on `/v1/blueprints` with bearer `tok`; `genHttp` the raw
outcome of the POST on `/v1/auth/access_token`; `now` is `Date.now()` for
this attempt. -/
structure Attempt where
  httpGet : String → Option Nat
  genHttp : Option (Nat × String)
  now : Nat

/-- axios GET semantics: a transport failure or timeout rejects, a response
with a non-2xx status rejects (default `validateStatus`), a 2xx response
resolves with its status. -/
def axiosGet (outcome : Option Nat) : Except Unit Nat :=
  match outcome with
  | none => Except.error ()
  | some status =>
      if 200 ≤ status ∧ status ≤ 299 then Except.ok status else Except.error ()

/-- axios POST semantics, carrying the response body's `accessToken`
field alongside the status. -/
def axiosPost (outcome : Option (Nat × String)) : Except Unit (Nat × String) :=
  match outcome with
  | none => Except.error ()
  | some (status, tok) =>
      if 200 ≤ status ∧ status ≤ 299 then Except.ok (status, tok)
      else Except.error ()

/-- `validateToken(token)`: GET `/v1/blueprints` with the bearer token;
return `response.status === 200`; any rejection is caught and yields
`false`. -/
def validateToken (httpGet : String → Option Nat) (token : String) : Bool :=
  match axiosGet (httpGet token) with
  | Except.ok status => status == 200
  | Except.error _ => false

/-- `generateNewToken()`: throws when client credentials are not configured
(JS truthiness); otherwise POSTs to `/v1/auth/access_token` and returns the
issued `accessToken` on status 200, rethrowing any rejection and throwing
on a resolved non-200 status. -/
def generateNewToken (creds : ClientCredentials)
    (genHttp : Option (Nat × String)) : Except String String :=
  if !(truthy creds.clientId && truthy creds.clientSecret) then
    Except.error "Client credentials not configured. Set PORT_CLIENT_ID and PORT_CLIENT_SECRET."
  else
    match axiosPost genHttp with
    | Except.error _ => Except.error "Token generation failed"
    | Except.ok (status, accessToken) =>
        if status == 200 then Except.ok accessToken
        else Except.error "Failed to generate token"

/-- The fallback tail of the invalid-current-token branch: pick the other
static token (`currentToken === tokens.primary ? secondary : primary`);
if it is truthy and validates, adopt it and stamp `lastRotation`. -/
def fallbackStatic (tm : TokenManager) (a : Attempt) :
    TokenManager × List NetCall :=
  let newToken :=
    if tm.currentToken == tm.tokens.primary then tm.tokens.secondary
    else tm.tokens.primary
  if truthy newToken then
    let s := newToken.getD ""
    if validateToken a.httpGet s then
      ({ tm with currentToken := newToken, lastRotation := a.now },
        [NetCall.validateCall s true])
    else (tm, [NetCall.validateCall s false])
  else (tm, [])

/-- The invalid-current-token branch: try programmatic generation when both
client credentials are truthy (success adopts and stamps, failure is caught
and falls through), then fall back to the other static token. -/
def tryRotate (tm : TokenManager) (a : Attempt) :
    TokenManager × List NetCall :=
  if truthy tm.clientCredentials.clientId
      && truthy tm.clientCredentials.clientSecret then
    match generateNewToken tm.clientCredentials a.genHttp with
    | Except.ok t =>
        ({ tm with currentToken := some t, lastRotation := a.now },
          [NetCall.generateCall (some t)])
    | Except.error _ =>
        let r := fallbackStatic tm a
        (r.1, NetCall.generateCall none :: r.2)
  else fallbackStatic tm a

/-- The probe of the secondary static token in the no-current-token branch:
`tokens.secondary && validateToken(tokens.secondary)` adopts and stamps. -/
def probeSecondary (tm : TokenManager) (a : Attempt) :
    TokenManager × List NetCall :=
  if truthy tm.tokens.secondary then
    let s := tm.tokens.secondary.getD ""
    if validateToken a.httpGet s then
      ({ tm with currentToken := tm.tokens.secondary, lastRotation := a.now },
        [NetCall.validateCall s true])
    else (tm, [NetCall.validateCall s false])
  else (tm, [])

/-- The no-current-token branch: probe the primary static token, then the
secondary, adopting and stamping at the first truthy one that validates
(short-circuit: a falsy token is not validated at all). -/
def probeStatics (tm : TokenManager) (a : Attempt) :
    TokenManager × List NetCall :=
  if truthy tm.tokens.primary then
    let p := tm.tokens.primary.getD ""
    if validateToken a.httpGet p then
      ({ tm with currentToken := tm.tokens.primary, lastRotation := a.now },
        [NetCall.validateCall p true])
    else
      let r := probeSecondary tm a
      (r.1, NetCall.validateCall p false :: r.2)
  else probeSecondary tm a

/-- The `if (this.currentToken) { ... } else { ... }` part of
`rotateToken`: validate a truthy current token (valid: exit with no
mutation; invalid: `tryRotate`), otherwise probe the static tokens. -/
def checkCurrent (tm : TokenManager) (a : Attempt) :
    TokenManager × List NetCall :=
  if truthy tm.currentToken then
    let c := tm.currentToken.getD ""
    if validateToken a.httpGet c then (tm, [NetCall.validateCall c true])
    else
      let r := tryRotate tm a
      (r.1, NetCall.validateCall c false :: r.2)
  else probeStatics tm a

/-- The body of `rotateToken` inside the outer `try` (run with
`isRotating = true`): when there is no truthy current token and both client
credentials are truthy, first try to generate (success adopts, stamps and
returns; the failure is caught, logged and falls through), then run
`checkCurrent`. -/
def rotateBody (tm : TokenManager) (a : Attempt) :
    TokenManager × List NetCall :=
  if !truthy tm.currentToken && truthy tm.clientCredentials.clientId
      && truthy tm.clientCredentials.clientSecret then
    match generateNewToken tm.clientCredentials a.genHttp with
    | Except.ok t =>
        ({ tm with currentToken := some t, lastRotation := a.now },
          [NetCall.generateCall (some t)])
    | Except.error _ =>
        let r := checkCurrent tm a
        (r.1, NetCall.generateCall none :: r.2)
  else checkCurrent tm a

/-- `rotateToken()`: the reentrancy guard returns immediately when
`isRotating` is already true; otherwise the body runs with
`isRotating = true` and the `finally` clears the flag on every exit path
(the outer `catch` swallows any fault, so the function never throws). -/
def rotateToken (tm : TokenManager) (a : Attempt) :
    TokenManager × List NetCall :=
  if tm.isRotating then (tm, [])
  else
    let r := rotateBody { tm with isRotating := true } a
    ({ r.1 with isRotating := false }, r.2)

/-- `manualRotate()`: the administrative trigger, which just invokes
`rotateToken`. -/
def manualRotate (tm : TokenManager) (a : Attempt) :
    TokenManager × List NetCall :=
  rotateToken tm a

/-- `getCurrentToken()`: read-only accessor for the current token. -/
def getCurrentToken (tm : TokenManager) : Option String :=
  tm.currentToken

/-- The snapshot returned by `getStatus()`: presence flags (JS truthiness,
rendered `"Set"` / `"Not Set"`), rotation timestamps (as the underlying
millisecond values of the ISO strings) and the `isRotating` flag. -/
structure Status where
  currentToken : String
  primaryToken : String
  secondaryToken : String
  serviceToken : String
  clientId : String
  clientSecret : String
  lastRotation : Nat
  nextRotation : Nat
  isRotating : Bool
deriving DecidableEq, Repr

/-- Render a presence flag the way `getStatus` does. -/
def setFlag (o : Option String) : String :=
  if truthy o then "Set" else "Not Set"

/-- `getStatus()`: a best-effort snapshot of the store; never exposes the
token values themselves. -/
def getStatus (tm : TokenManager) : Status :=
  { currentToken := setFlag tm.currentToken
    primaryToken := setFlag tm.tokens.primary
    secondaryToken := setFlag tm.tokens.secondary
    serviceToken := setFlag tm.tokens.service
    clientId := setFlag tm.clientCredentials.clientId
    clientSecret := setFlag tm.clientCredentials.clientSecret
    lastRotation := tm.lastRotation
    nextRotation := tm.lastRotation + tm.rotationInterval
    isRotating := tm.isRotating }

/-- `initializeTokenFromCredentials()`: the fire-and-forget initial
generation started by the constructor; on success it adopts the issued
token and stamps `lastRotation`, and its rethrown failure is swallowed by
the constructor's `.catch`. -/
def initGenStep (tm : TokenManager) (genHttp : Option (Nat × String))
    (now : Nat) : TokenManager × List NetCall :=
  match generateNewToken tm.clientCredentials genHttp with
  | Except.ok t =>
      ({ tm with currentToken := some t, lastRotation := now },
        [NetCall.generateCall (some t)])
  | Except.error _ => (tm, [NetCall.generateCall none])

/-- One step of the process lifetime after construction: a rotation attempt
(timer-driven or manual) or the completion of the background initial
generation. -/
inductive ProcStep where
  | rotate (a : Attempt)
  | initGen (genHttp : Option (Nat × String)) (now : Nat)

/-- Apply one process step. -/
def step (tm : TokenManager) : ProcStep → TokenManager × List NetCall
  | ProcStep.rotate a => rotateToken tm a
  | ProcStep.initGen g n => initGenStep tm g n

/-- The state after a sequence of process steps. -/
def run (tm : TokenManager) : List ProcStep → TokenManager
  | [] => tm
  | st :: rest => run (step tm st).1 rest

/-- All network calls made along a sequence of process steps, in order. -/
def runCalls (tm : TokenManager) : List ProcStep → List NetCall
  | [] => []
  | st :: rest => (step tm st).2 ++ runCalls (step tm st).1 rest

/-- The token a network call confirms, if any: a successful validation
confirms the validated token, a successful issuance confirms the issued
token. -/
def callConfirm : NetCall → Option String
  | NetCall.validateCall t true => some t
  | NetCall.generateCall (some t) => some t
  | _ => none

/-- The token confirmed by the most recent confirming call of a call
history, if any. -/
def lastConfirmed (calls : List NetCall) : Option String :=
  (calls.filterMap callConfirm).getLast?

/-- The tokens submitted to the Validator by a list of calls, in order. -/
def validatedTokens (calls : List NetCall) : List String :=
  calls.filterMap fun c =>
    match c with
    | NetCall.validateCall t _ => some t
    | _ => none

/-- What one step may do to the store, relative to the calls it made:
either it leaves `currentToken` and `lastRotation` unchanged and its most
recent confirming call (if any) confirms the held token, or it adopts a
token `t` confirmed by its most recent confirming call and stamps
`lastRotation` with the step's time. -/
def StepOk (tm : TokenManager) (r : TokenManager × List NetCall)
    (now : Nat) : Prop :=
  (r.1.currentToken = tm.currentToken ∧ r.1.lastRotation = tm.lastRotation
    ∧ (lastConfirmed r.2 = none ∨ lastConfirmed r.2 = tm.currentToken))
  ∨ (∃ t, r.1.currentToken = some t ∧ r.1.lastRotation = now
      ∧ lastConfirmed r.2 = some t)

/-- The time a process step stamps `lastRotation` with, when it does. -/
def stepTime : ProcStep → Nat
  | ProcStep.rotate a => a.now
  | ProcStep.initGen _ n => n

/-! ## Concrete instances used by the witnesses and the counterexample -/

/-- A manager observed mid-rotation (`isRotating = true`). -/
def tmBusy : TokenManager :=
  { tokens := { primary := some "tok-A", secondary := some "tok-B", service := none }
    clientCredentials := { clientId := none, clientSecret := none }
    currentToken := some "tok-A"
    lastRotation := 0
    rotationInterval := 9000000
    isRotating := true }

/-- An attempt whose network is entirely unreachable. -/
def attDown : Attempt :=
  { httpGet := fun _ => none, genHttp := none, now := 42 }

/-- A manager holding the primary token with no client credentials. -/
def tmHeld : TokenManager :=
  { tokens := { primary := some "tok-A", secondary := none, service := none }
    clientCredentials := { clientId := none, clientSecret := none }
    currentToken := some "tok-A"
    lastRotation := 10
    rotationInterval := 9000000
    isRotating := false }

/-- An attempt in which only `"tok-A"` validates. -/
def attOkA : Attempt :=
  { httpGet := fun t => if t == "tok-A" then some 200 else some 401
    genHttp := none
    now := 99 }

/-- A manager configured only with client credentials. -/
def tmCreds : TokenManager :=
  { tokens := { primary := none, secondary := none, service := none }
    clientCredentials := { clientId := some "id", clientSecret := some "sec" }
    currentToken := none
    lastRotation := 0
    rotationInterval := 9000000
    isRotating := false }

/-- An attempt whose issuance endpoint returns 200 with `"tok-NEW"`. -/
def attIssue : Attempt :=
  { httpGet := fun _ => none, genHttp := some (200, "tok-NEW"), now := 5 }

/-- A manager holding the (stale) primary token `"tok-A"`, with secondary
`"tok-B"` configured and no client credentials. -/
def tmStale : TokenManager :=
  { tokens := { primary := some "tok-A", secondary := some "tok-B", service := none }
    clientCredentials := { clientId := none, clientSecret := none }
    currentToken := some "tok-A"
    lastRotation := 0
    rotationInterval := 9000000
    isRotating := false }

/-- An attempt in which only `"tok-B"` validates. -/
def attOkB : Attempt :=
  { httpGet := fun t => if t == "tok-B" then some 200 else some 401
    genHttp := none
    now := 77 }

/-- A manager with both static tokens configured, no current token and no
client credentials. -/
def tmNoTok : TokenManager :=
  { tokens := { primary := some "tok-P", secondary := some "tok-S", service := none }
    clientCredentials := { clientId := none, clientSecret := none }
    currentToken := none
    lastRotation := 3
    rotationInterval := 9000000
    isRotating := false }

/-- A manager holding a previously generated token `"tok-G"` that matches
neither configured static token, with no client credentials. -/
def tmDrift : TokenManager :=
  { tokens := { primary := some "tok-P", secondary := some "tok-S", service := none }
    clientCredentials := { clientId := none, clientSecret := none }
    currentToken := some "tok-G"
    lastRotation := 3
    rotationInterval := 9000000
    isRotating := false }

/-- An attempt in which only `"tok-S"` validates. -/
def attOkS : Attempt :=
  { httpGet := fun t => if t == "tok-S" then some 200 else some 401
    genHttp := none
    now := 9 }

/-- An environment configuring only the primary token. -/
def envSeed : Env :=
  { PORT_API_TOKEN_PRIMARY := some "tok-A"
    PORT_API_TOKEN_SECONDARY := none
    PORT_SERVICE_TOKEN := none
    PORT_CLIENT_ID := none
    PORT_CLIENT_SECRET := none }

/-! ## Helper lemmas -/

theorem truthy_none : truthy none = false := rfl

theorem truthy_some_iff (s : String) : truthy (some s) = (s != "") := rfl

theorem truthy_eq_some {o : Option String} (h : truthy o = true) :
    o = some (o.getD "") := by
  cases o with
  | none => simp [truthy] at h
  | some s => rfl

theorem probeSecondary_isRotating (tm : TokenManager) (a : Attempt) :
    (probeSecondary tm a).1.isRotating = tm.isRotating := by
  simp only [probeSecondary]
  split <;> (try split) <;> rfl

theorem probeStatics_isRotating (tm : TokenManager) (a : Attempt) :
    (probeStatics tm a).1.isRotating = tm.isRotating := by
  simp only [probeStatics]
  split <;> (try split) <;> simp [probeSecondary_isRotating]

theorem fallbackStatic_isRotating (tm : TokenManager) (a : Attempt) :
    (fallbackStatic tm a).1.isRotating = tm.isRotating := by
  simp only [fallbackStatic]
  split <;> (try split) <;> (try split) <;> rfl

theorem tryRotate_isRotating (tm : TokenManager) (a : Attempt) :
    (tryRotate tm a).1.isRotating = tm.isRotating := by
  simp only [tryRotate]
  split
  · split <;> simp [fallbackStatic_isRotating]
  · exact fallbackStatic_isRotating tm a

theorem checkCurrent_isRotating (tm : TokenManager) (a : Attempt) :
    (checkCurrent tm a).1.isRotating = tm.isRotating := by
  simp only [checkCurrent]
  split
  · split
    · rfl
    · simp [tryRotate_isRotating]
  · exact probeStatics_isRotating tm a

theorem rotateBody_isRotating (tm : TokenManager) (a : Attempt) :
    (rotateBody tm a).1.isRotating = tm.isRotating := by
  simp only [rotateBody]
  split
  · split <;> simp [checkCurrent_isRotating]
  · exact checkCurrent_isRotating tm a

/-! ## Claim theorems -/

/-- C9: `validateToken` is a total boolean function (any rejection of the
GET — transport error, timeout, or a non-2xx status — is caught and yields
`false`; a resolved 2xx response yields `status == 200`), and it returns
`true` if and only if the GET on `/v1/blueprints` with that bearer token
yields an explicit HTTP 200. -/
theorem validateToken_true_iff_http200 (httpGet : String → Option Nat)
    (token : String) :
    validateToken httpGet token = true ↔ httpGet token = some 200 := by
  unfold validateToken axiosGet
  cases h : httpGet token with
  | none => simp
  | some status =>
      by_cases h2 : 200 ≤ status ∧ status ≤ 299
      · simp only [h2, if_true]
        constructor
        · intro hb
          simp_all
        · intro hb
          simp_all
      · simp only [h2, if_false]
        constructor
        · intro hb
          simp_all
        · intro hb
          simp only [Option.some.injEq] at hb
          omega

/-- C9 witness: a GET resolving with status 200 validates. -/
theorem validateToken_true_iff_http200_witness :
    validateToken (fun _ => some 200) "tok" = true :=
  (validateToken_true_iff_http200 (fun _ => some 200) "tok").mpr rfl

/-- C1: the reentrancy guard. A rotation attempt (timer-driven
`rotateToken` or `manualRotate`, which invokes the identical logic) that
finds `isRotating = true` returns immediately, with no network call and
the whole state unchanged. Otherwise the body runs on the state with
`isRotating = true`, the body itself never changes the flag (so it stays
true for the whole attempt), and the `finally` clears it on every exit
path, so the attempt ends with `isRotating = false`. -/
theorem rotateToken_single_flight (tm : TokenManager) (a : Attempt) :
    (tm.isRotating = true →
      rotateToken tm a = (tm, []) ∧ manualRotate tm a = (tm, []))
    ∧ (tm.isRotating = false →
      rotateToken tm a
        = ({ (rotateBody { tm with isRotating := true } a).1 with
              isRotating := false },
           (rotateBody { tm with isRotating := true } a).2)
      ∧ (rotateToken tm a).1.isRotating = false)
    ∧ (rotateBody tm a).1.isRotating = tm.isRotating := by
  refine ⟨fun h => ?_, fun h => ?_, rotateBody_isRotating tm a⟩
  · exact ⟨by simp [rotateToken, h], by simp [manualRotate, rotateToken, h]⟩
  · exact ⟨by simp [rotateToken, h], by simp [rotateToken, h]⟩

/-- C1 witness: a manual trigger while a rotation is in flight is a no-op
with no network calls. -/
theorem rotateToken_single_flight_witness :
    rotateToken tmBusy attDown = (tmBusy, [])
    ∧ manualRotate tmBusy attDown = (tmBusy, []) :=
  (rotateToken_single_flight tmBusy attDown).1 rfl

/-- C5: a held token that re-validates. When `currentToken` holds a truthy
token that the Validator accepts, the attempt performs exactly that one
validation call and leaves the whole state unchanged — in particular
`currentToken` and `lastRotation`. -/
theorem rotateToken_valid_noop (tm : TokenManager) (a : Attempt) (c : String)
    (hrot : tm.isRotating = false) (hcur : tm.currentToken = some c)
    (hc : c ≠ "") (hval : validateToken a.httpGet c = true) :
    (rotateToken tm a).1 = tm
    ∧ (rotateToken tm a).2 = [NetCall.validateCall c true] := by
  obtain ⟨tk, cc, cur, lr, ri, ir⟩ := tm
  dsimp only at hrot hcur
  subst hrot hcur
  have htr : truthy (some c) = true := by simp [truthy, hc]
  constructor <;>
    simp [rotateToken, rotateBody, checkCurrent, htr, hval]

/-- C5 witness: re-validating the held `"tok-A"` leaves the store
untouched. -/
theorem rotateToken_valid_noop_witness :
    (rotateToken tmHeld attOkA).1 = tmHeld
    ∧ (rotateToken tmHeld attOkA).2 = [NetCall.validateCall "tok-A" true] :=
  rotateToken_valid_noop tmHeld attOkA "tok-A" rfl rfl (by decide) (by decide)

/-- C3: generation on an absent token. When `currentToken` is absent, both
client credentials are truthy and `generateNewToken` succeeds with token
`t`, the attempt adopts `t` as `currentToken`, stamps `lastRotation` with
the attempt time, and performs exactly the one issuance call — no
validation and no fallback probing. -/
theorem rotateToken_generate_when_absent (tm : TokenManager) (a : Attempt)
    (t : String)
    (hrot : tm.isRotating = false) (hcur : tm.currentToken = none)
    (hci : truthy tm.clientCredentials.clientId = true)
    (hcs : truthy tm.clientCredentials.clientSecret = true)
    (hgen : generateNewToken tm.clientCredentials a.genHttp = Except.ok t) :
    (rotateToken tm a).1
      = { tm with currentToken := some t, lastRotation := a.now }
    ∧ (rotateToken tm a).2 = [NetCall.generateCall (some t)] := by
  obtain ⟨tk, cc, cur, lr, ri, ir⟩ := tm
  dsimp only at hrot hcur hci hcs hgen
  subst hrot hcur
  constructor <;>
    simp [rotateToken, rotateBody, truthy_none, hci, hcs, hgen]

/-- C3 witness: with only client credentials configured and the Generator
returning `"tok-NEW"`, one rotation attempt ends with
`currentToken = "tok-NEW"`. -/
theorem rotateToken_generate_when_absent_witness :
    (rotateToken tmCreds attIssue).1
      = { tmCreds with currentToken := some "tok-NEW", lastRotation := 5 }
    ∧ (rotateToken tmCreds attIssue).2
      = [NetCall.generateCall (some "tok-NEW")] :=
  rotateToken_generate_when_absent tmCreds attIssue "tok-NEW" rfl rfl
    (by decide) (by decide) rfl

theorem fallbackStatic_setRotating (tm : TokenManager) (a : Attempt) :
    fallbackStatic { tm with isRotating := true } a
      = ({ (fallbackStatic tm a).1 with isRotating := true },
         (fallbackStatic tm a).2) := by
  simp only [fallbackStatic]
  split <;> (try split) <;> (try split) <;> rfl

theorem fallbackStatic_spec (tm : TokenManager) (a : Attempt)
    (cand : Option String)
    (hcand : (if tm.currentToken == tm.tokens.primary then tm.tokens.secondary
        else tm.tokens.primary) = cand) :
    (truthy cand = true → validateToken a.httpGet (cand.getD "") = true →
      fallbackStatic tm a
        = ({ tm with currentToken := cand, lastRotation := a.now },
           [NetCall.validateCall (cand.getD "") true]))
    ∧ (truthy cand = true → validateToken a.httpGet (cand.getD "") = false →
      fallbackStatic tm a
        = (tm, [NetCall.validateCall (cand.getD "") false]))
    ∧ (truthy cand = false →
      fallbackStatic tm a = (tm, [])) := by
  refine ⟨fun h1 h2 => ?_, fun h1 h2 => ?_, fun h1 => ?_⟩
  · simp only [fallbackStatic, hcand]
    simp [h1, h2]
  · simp only [fallbackStatic, hcand]
    simp [h1, h2]
  · simp only [fallbackStatic, hcand]
    simp [h1]

theorem rotateToken_invalid_reduces (tm : TokenManager) (a : Attempt)
    (c : String)
    (hrot : tm.isRotating = false) (hcur : tm.currentToken = some c)
    (hc : c ≠ "") (hval : validateToken a.httpGet c = false)
    (hgen : ∀ t, generateNewToken tm.clientCredentials a.genHttp ≠ Except.ok t) :
    (rotateToken tm a).1 = { (fallbackStatic tm a).1 with isRotating := false }
    ∧ validatedTokens (rotateToken tm a).2
        = c :: validatedTokens (fallbackStatic tm a).2 := by
  have hcb : (c != "") = true := by simp [hc]
  have htr : truthy tm.currentToken = true := by
    rw [hcur, truthy_some_iff]; exact hcb
  have hg : tm.currentToken.getD "" = c := by rw [hcur]; rfl
  cases hE : generateNewToken tm.clientCredentials a.genHttp with
  | ok t => exact absurd hE (hgen t)
  | error e =>
      by_cases hcc : (truthy tm.clientCredentials.clientId
          && truthy tm.clientCredentials.clientSecret) = true
      · constructor <;>
          simp [rotateToken, rotateBody, checkCurrent, tryRotate, hrot, htr,
            hg, hval, hE, hcc, fallbackStatic_setRotating, validatedTokens]
      · rw [Bool.not_eq_true] at hcc
        constructor <;>
          simp [rotateToken, rotateBody, checkCurrent, tryRotate, hrot, htr,
            hg, hval, hE, hcc, fallbackStatic_setRotating, validatedTokens]

/-- C2: fallback to the other static token. In an attempt where the current
token is truthy but fails validation and programmatic generation is
unavailable or fails, the scheduler picks the other static token
(`secondary` when the current token equals the primary, else `primary`),
and adopts it as `currentToken` while stamping `lastRotation` with the
attempt time if and only if that token is truthy and validates; otherwise
both fields keep their prior values. -/
theorem rotateToken_fallback_other_static (tm : TokenManager) (a : Attempt)
    (c : String)
    (hrot : tm.isRotating = false) (hcur : tm.currentToken = some c)
    (hc : c ≠ "") (hval : validateToken a.httpGet c = false)
    (hgen : ∀ t, generateNewToken tm.clientCredentials a.genHttp ≠ Except.ok t) :
    let cand := if tm.currentToken == tm.tokens.primary then tm.tokens.secondary
        else tm.tokens.primary
    ((truthy cand = true ∧ validateToken a.httpGet (cand.getD "") = true) →
      (rotateToken tm a).1.currentToken = cand
      ∧ (rotateToken tm a).1.lastRotation = a.now)
    ∧ (¬(truthy cand = true ∧ validateToken a.httpGet (cand.getD "") = true) →
      (rotateToken tm a).1.currentToken = tm.currentToken
      ∧ (rotateToken tm a).1.lastRotation = tm.lastRotation) := by
  intro cand
  obtain ⟨hstate, -⟩ := rotateToken_invalid_reduces tm a c hrot hcur hc hval hgen
  obtain ⟨hadopt, hreject, hfalsy⟩ := fallbackStatic_spec tm a cand rfl
  constructor
  · rintro ⟨h1, h2⟩
    rw [hstate, hadopt h1 h2]
    exact ⟨rfl, rfl⟩
  · intro hnot
    by_cases h1 : truthy cand = true
    · have h2 : validateToken a.httpGet (cand.getD "") = false := by
        rcases Bool.eq_false_or_eq_true (validateToken a.httpGet (cand.getD ""))
          with h | h
        · exact absurd ⟨h1, h⟩ hnot
        · exact h
      rw [hstate, hreject h1 h2]
      exact ⟨rfl, rfl⟩
    · rw [Bool.not_eq_true] at h1
      rw [hstate, hfalsy h1]
      exact ⟨rfl, rfl⟩

/-- C2 witness: `primaryToken = "tok-A"` (invalid), `secondaryToken =
"tok-B"` (valid), no client credentials, `currentToken = "tok-A"`: one
attempt ends with `currentToken = "tok-B"` and `lastRotation` stamped. -/
theorem rotateToken_fallback_other_static_witness :
    (rotateToken tmStale attOkB).1.currentToken = some "tok-B"
    ∧ (rotateToken tmStale attOkB).1.lastRotation = 77 :=
  (rotateToken_fallback_other_static tmStale attOkB "tok-A" rfl rfl
      (by decide) (by decide)
      (fun t h => by simp [generateNewToken, truthy, tmStale] at h)).1
    ⟨by decide, by decide⟩

/-- C10 (implicit): in the fallback branch (current token truthy, invalid,
generation unavailable or failed), at most one static token is probed: the
whole attempt validates exactly the current token and then, when truthy,
the single candidate `secondary if current == primary else primary`. When
the current token differs from the primary token the candidate is the
primary token, so the secondary token's slot is never probed in that
attempt, whatever the Validator would say about it. -/
theorem rotateToken_fallback_single_probe (tm : TokenManager) (a : Attempt)
    (c : String)
    (hrot : tm.isRotating = false) (hcur : tm.currentToken = some c)
    (hc : c ≠ "") (hval : validateToken a.httpGet c = false)
    (hgen : ∀ t, generateNewToken tm.clientCredentials a.genHttp ≠ Except.ok t) :
    let cand := if tm.currentToken == tm.tokens.primary then tm.tokens.secondary
        else tm.tokens.primary
    validatedTokens (rotateToken tm a).2
      = c :: (if truthy cand = true then [cand.getD ""] else [])
    ∧ (tm.currentToken ≠ tm.tokens.primary → cand = tm.tokens.primary) := by
  intro cand
  obtain ⟨-, hcalls⟩ := rotateToken_invalid_reduces tm a c hrot hcur hc hval hgen
  obtain ⟨hadopt, hreject, hfalsy⟩ := fallbackStatic_spec tm a cand rfl
  constructor
  · rw [hcalls]
    by_cases h1 : truthy cand = true
    · cases h2 : validateToken a.httpGet (cand.getD "") with
      | true => rw [hadopt h1 h2]; simp [validatedTokens, h1]
      | false => rw [hreject h1 h2]; simp [validatedTokens, h1]
    · rw [Bool.not_eq_true] at h1
      rw [hfalsy h1]
      simp [validatedTokens, h1]
  · intro hne
    have : (tm.currentToken == tm.tokens.primary) = false := by
      simp [hne]
    simp only [cand, this]
    rfl

/-- C10 witness: `currentToken = "tok-G"` (generated earlier, equals
neither static token, invalid), `primaryToken = "tok-P"` (invalid),
`secondaryToken = "tok-S"` (the only valid token), no client credentials:
the attempt probes only `"tok-G"` and `"tok-P"` — the valid secondary is
never considered. -/
theorem rotateToken_fallback_single_probe_witness :
    validatedTokens (rotateToken tmDrift attOkS).2 = ["tok-G", "tok-P"]
    ∧ validateToken attOkS.httpGet "tok-S" = true :=
  ⟨by
    have h := (rotateToken_fallback_single_probe tmDrift attOkS "tok-G" rfl rfl
        (by decide) (by decide)
        (fun t h => by simp [generateNewToken, truthy, tmDrift] at h)).1
    simpa using h,
   by decide⟩

theorem setRotating_false_self (tm : TokenManager) (h : tm.isRotating = false) :
    ({ tm with isRotating := false } : TokenManager) = tm := by
  cases tm
  simp_all

theorem probeSecondary_setRotating (tm : TokenManager) (a : Attempt) :
    probeSecondary { tm with isRotating := true } a
      = ({ (probeSecondary tm a).1 with isRotating := true },
         (probeSecondary tm a).2) := by
  simp only [probeSecondary]
  split <;> (try split) <;> rfl

theorem probeStatics_setRotating (tm : TokenManager) (a : Attempt) :
    probeStatics { tm with isRotating := true } a
      = ({ (probeStatics tm a).1 with isRotating := true },
         (probeStatics tm a).2) := by
  simp only [probeStatics]
  split <;> (try split) <;> simp [probeSecondary_setRotating]

theorem probeSecondary_spec (tm : TokenManager) (a : Attempt) :
    (truthy tm.tokens.secondary = true →
      validateToken a.httpGet (tm.tokens.secondary.getD "") = true →
      probeSecondary tm a
        = ({ tm with currentToken := tm.tokens.secondary, lastRotation := a.now },
           [NetCall.validateCall (tm.tokens.secondary.getD "") true]))
    ∧ (truthy tm.tokens.secondary = true →
      validateToken a.httpGet (tm.tokens.secondary.getD "") = false →
      probeSecondary tm a
        = (tm, [NetCall.validateCall (tm.tokens.secondary.getD "") false]))
    ∧ (truthy tm.tokens.secondary = false →
      probeSecondary tm a = (tm, [])) := by
  refine ⟨fun h1 h2 => ?_, fun h1 h2 => ?_, fun h1 => ?_⟩
  · simp only [probeSecondary]
    simp [h1, h2]
  · simp only [probeSecondary]
    simp [h1, h2]
  · simp only [probeSecondary]
    simp [h1]

theorem probeStatics_spec (tm : TokenManager) (a : Attempt) :
    (truthy tm.tokens.primary = true →
      validateToken a.httpGet (tm.tokens.primary.getD "") = true →
      probeStatics tm a
        = ({ tm with currentToken := tm.tokens.primary, lastRotation := a.now },
           [NetCall.validateCall (tm.tokens.primary.getD "") true]))
    ∧ (truthy tm.tokens.primary = true →
      validateToken a.httpGet (tm.tokens.primary.getD "") = false →
      probeStatics tm a
        = ((probeSecondary tm a).1,
           NetCall.validateCall (tm.tokens.primary.getD "") false
             :: (probeSecondary tm a).2))
    ∧ (truthy tm.tokens.primary = false →
      probeStatics tm a = probeSecondary tm a) := by
  refine ⟨fun h1 h2 => ?_, fun h1 h2 => ?_, fun h1 => ?_⟩
  · simp only [probeStatics]
    simp [h1, h2]
  · simp only [probeStatics]
    simp [h1, h2]
  · simp only [probeStatics]
    simp [h1]

theorem rotateToken_absent_reduces (tm : TokenManager) (a : Attempt)
    (hrot : tm.isRotating = false) (htr : truthy tm.currentToken = false)
    (hgen : ∀ t, generateNewToken tm.clientCredentials a.genHttp ≠ Except.ok t) :
    (rotateToken tm a).1 = { (probeStatics tm a).1 with isRotating := false }
    ∧ validatedTokens (rotateToken tm a).2
        = validatedTokens (probeStatics tm a).2 := by
  cases hE : generateNewToken tm.clientCredentials a.genHttp with
  | ok t => exact absurd hE (hgen t)
  | error e =>
      by_cases hcc : (truthy tm.clientCredentials.clientId
          && truthy tm.clientCredentials.clientSecret) = true
      · constructor <;>
          simp [rotateToken, rotateBody, checkCurrent, hrot, htr, hE, hcc,
            probeStatics_setRotating, validatedTokens]
      · rw [Bool.not_eq_true] at hcc
        constructor <;>
          simp [rotateToken, rotateBody, checkCurrent, hrot, htr, hE, hcc,
            probeStatics_setRotating, validatedTokens]

theorem truthy_getD_ne {o : Option String} (h : truthy o = true) :
    o.getD "" ≠ "" := by
  cases o with
  | none => simp [truthy] at h
  | some s => simpa [truthy] using h

/-- C4: the no-token probe. In an attempt where `currentToken` is absent
and the client credentials are not both truthy, the static tokens are
probed in order primary first, then secondary; the first truthy one that
validates is adopted with `lastRotation` stamped (and the later one is not
probed); if neither truthy static token validates, the store is left
exactly as it was. -/
theorem rotateToken_probe_statics_order (tm : TokenManager) (a : Attempt)
    (hrot : tm.isRotating = false) (hcur : tm.currentToken = none)
    (hcreds : (truthy tm.clientCredentials.clientId
        && truthy tm.clientCredentials.clientSecret) = false) :
    (truthy tm.tokens.primary = true →
      validateToken a.httpGet (tm.tokens.primary.getD "") = true →
      (rotateToken tm a).1
        = { tm with currentToken := tm.tokens.primary, lastRotation := a.now }
      ∧ validatedTokens (rotateToken tm a).2 = [tm.tokens.primary.getD ""])
    ∧ (truthy tm.tokens.primary = true →
      validateToken a.httpGet (tm.tokens.primary.getD "") = false →
      truthy tm.tokens.secondary = true →
      validateToken a.httpGet (tm.tokens.secondary.getD "") = true →
      (rotateToken tm a).1
        = { tm with currentToken := tm.tokens.secondary, lastRotation := a.now }
      ∧ validatedTokens (rotateToken tm a).2
          = [tm.tokens.primary.getD "", tm.tokens.secondary.getD ""])
    ∧ (truthy tm.tokens.primary = false →
      truthy tm.tokens.secondary = true →
      validateToken a.httpGet (tm.tokens.secondary.getD "") = true →
      (rotateToken tm a).1
        = { tm with currentToken := tm.tokens.secondary, lastRotation := a.now }
      ∧ validatedTokens (rotateToken tm a).2 = [tm.tokens.secondary.getD ""])
    ∧ ((truthy tm.tokens.primary = false
        ∨ validateToken a.httpGet (tm.tokens.primary.getD "") = false) →
      (truthy tm.tokens.secondary = false
        ∨ validateToken a.httpGet (tm.tokens.secondary.getD "") = false) →
      (rotateToken tm a).1 = tm) := by
  have hgen : ∀ t, generateNewToken tm.clientCredentials a.genHttp
      ≠ Except.ok t := by
    intro t h
    rw [generateNewToken, hcreds] at h
    simp at h
  have htr : truthy tm.currentToken = false := by rw [hcur]; rfl
  obtain ⟨hstate, hcalls⟩ := rotateToken_absent_reduces tm a hrot htr hgen
  obtain ⟨ps1, ps2, ps3⟩ := probeStatics_spec tm a
  obtain ⟨ss1, ss2, ss3⟩ := probeSecondary_spec tm a
  refine ⟨fun h1 h2 => ?_, fun h1 h2 h3 h4 => ?_, fun h1 h2 h3 => ?_,
    fun h1 h2 => ?_⟩
  · rw [hstate, hcalls, ps1 h1 h2]
    exact ⟨setRotating_false_self _ hrot, rfl⟩
  · rw [hstate, hcalls, ps2 h1 h2, ss1 h3 h4]
    exact ⟨setRotating_false_self _ hrot, by simp [validatedTokens]⟩
  · rw [hstate, hcalls, ps3 h1, ss1 h2 h3]
    exact ⟨setRotating_false_self _ hrot, rfl⟩
  · have hsec : (probeSecondary tm a).1 = tm := by
      by_cases hS : truthy tm.tokens.secondary = true
      · have hv : validateToken a.httpGet (tm.tokens.secondary.getD "")
            = false := by
          rcases h2 with h2 | h2
          · rw [hS] at h2; cases h2
          · exact h2
        rw [ss2 hS hv]
      · rw [Bool.not_eq_true] at hS
        rw [ss3 hS]
    have hps : (probeStatics tm a).1 = tm := by
      by_cases hP : truthy tm.tokens.primary = true
      · have hv : validateToken a.httpGet (tm.tokens.primary.getD "")
            = false := by
          rcases h1 with h1 | h1
          · rw [hP] at h1; cases h1
          · exact h1
        rw [ps2 hP hv]
        exact hsec
      · rw [Bool.not_eq_true] at hP
        rw [ps3 hP]
        exact hsec
    rw [hstate, hps]
    exact setRotating_false_self tm hrot

/-- C4 witness: primary `"tok-P"` invalid, secondary `"tok-S"` valid: the
attempt probes primary first, then adopts the secondary and stamps
`lastRotation`. -/
theorem rotateToken_probe_statics_order_witness :
    (rotateToken tmNoTok attOkS).1
      = { tmNoTok with currentToken := some "tok-S", lastRotation := 9 }
    ∧ validatedTokens (rotateToken tmNoTok attOkS).2 = ["tok-P", "tok-S"] :=
  (rotateToken_probe_statics_order tmNoTok attOkS rfl rfl rfl).2.1
    (by decide) (by decide) (by decide) (by decide)

/-- C6: containment of the worst case. In an attempt where programmatic
generation never succeeds (unavailable or failing) and no probed token
(the held one, the primary, the secondary) validates, the whole store is
left exactly as it was — `currentToken` keeps its prior value, possibly
absent. The attempt is a total function (every fault of `generateNewToken`
is consumed by a `match`, `validateToken` is a total boolean), the manual
trigger runs the identical logic, and the read path (`getCurrentToken`,
`getStatus`) still returns its best-effort snapshot unchanged. -/
theorem rotateToken_no_valid_token_no_mutation (tm : TokenManager)
    (a : Attempt)
    (hrot : tm.isRotating = false)
    (hgen : ∀ t, generateNewToken tm.clientCredentials a.genHttp ≠ Except.ok t)
    (hcv : ∀ c, tm.currentToken = some c → validateToken a.httpGet c = false)
    (hp : ∀ p, tm.tokens.primary = some p → validateToken a.httpGet p = false)
    (hs : ∀ s, tm.tokens.secondary = some s →
      validateToken a.httpGet s = false) :
    (rotateToken tm a).1 = tm
    ∧ manualRotate tm a = rotateToken tm a
    ∧ getCurrentToken (rotateToken tm a).1 = tm.currentToken
    ∧ getStatus (rotateToken tm a).1 = getStatus tm := by
  have hmain : (rotateToken tm a).1 = tm := by
    by_cases htr : truthy tm.currentToken = true
    · have he : tm.currentToken = some (tm.currentToken.getD "") :=
        truthy_eq_some htr
      have hcne : tm.currentToken.getD "" ≠ "" := truthy_getD_ne htr
      have hval : validateToken a.httpGet (tm.currentToken.getD "") = false :=
        hcv _ he
      obtain ⟨hstate, -⟩ :=
        rotateToken_invalid_reduces tm a (tm.currentToken.getD "") hrot he
          hcne hval hgen
      obtain ⟨hadopt, hreject, hfalsy⟩ := fallbackStatic_spec tm a
        (if tm.currentToken == tm.tokens.primary then tm.tokens.secondary
          else tm.tokens.primary) rfl
      have hfb : (fallbackStatic tm a).1 = tm := by
        by_cases h1 : truthy (if tm.currentToken == tm.tokens.primary
            then tm.tokens.secondary else tm.tokens.primary) = true
        · have hv : validateToken a.httpGet
              ((if tm.currentToken == tm.tokens.primary then tm.tokens.secondary
                else tm.tokens.primary).getD "") = false := by
            by_cases hpq : (tm.currentToken == tm.tokens.primary) = true
            · rw [hpq] at h1 ⊢
              simp only [if_true] at h1 ⊢
              exact hs _ (truthy_eq_some h1)
            · rw [Bool.not_eq_true] at hpq
              rw [hpq] at h1 ⊢
              simp only [Bool.false_eq_true, if_false] at h1 ⊢
              exact hp _ (truthy_eq_some h1)
          rw [hreject h1 hv]
        · rw [Bool.not_eq_true] at h1
          rw [hfalsy h1]
      rw [hstate, hfb]
      exact setRotating_false_self tm hrot
    · rw [Bool.not_eq_true] at htr
      obtain ⟨hstate, -⟩ := rotateToken_absent_reduces tm a hrot htr hgen
      obtain ⟨ps1, ps2, ps3⟩ := probeStatics_spec tm a
      obtain ⟨ss1, ss2, ss3⟩ := probeSecondary_spec tm a
      have hsec : (probeSecondary tm a).1 = tm := by
        by_cases hS : truthy tm.tokens.secondary = true
        · rw [ss2 hS (hs _ (truthy_eq_some hS))]
        · rw [Bool.not_eq_true] at hS
          rw [ss3 hS]
      have hps : (probeStatics tm a).1 = tm := by
        by_cases hP : truthy tm.tokens.primary = true
        · rw [ps2 hP (hp _ (truthy_eq_some hP))]
          exact hsec
        · rw [Bool.not_eq_true] at hP
          rw [ps3 hP]
          exact hsec
      rw [hstate, hps]
      exact setRotating_false_self tm hrot
  refine ⟨hmain, rfl, ?_, ?_⟩
  · rw [getCurrentToken, hmain]
  · rw [hmain]

/-- C6 witness: the whole network unreachable (every validation and the
issuance rejected): the attempt on a held token leaves the store
untouched, and the status snapshot is unchanged. -/
theorem rotateToken_no_valid_token_no_mutation_witness :
    (rotateToken tmHeld attDown).1 = tmHeld
    ∧ manualRotate tmHeld attDown = rotateToken tmHeld attDown
    ∧ getCurrentToken (rotateToken tmHeld attDown).1 = tmHeld.currentToken
    ∧ getStatus (rotateToken tmHeld attDown).1 = getStatus tmHeld :=
  rotateToken_no_valid_token_no_mutation tmHeld attDown rfl
    (fun t h => by simp [generateNewToken, truthy, tmHeld] at h)
    (fun c hc => by
      simp [validateToken, axiosGet, attDown])
    (fun p hp => by
      simp [validateToken, axiosGet, attDown])
    (fun s hs => by
      simp [validateToken, axiosGet, attDown])

theorem lastConfirmed_cons_none {c : NetCall} {cs : List NetCall}
    (h : callConfirm c = none) :
    lastConfirmed (c :: cs) = lastConfirmed cs := by
  simp [lastConfirmed, List.filterMap_cons, h]

theorem lastConfirmed_append_of_eq_none (pre cs : List NetCall)
    (h : lastConfirmed cs = none) :
    lastConfirmed (pre ++ cs) = lastConfirmed pre := by
  have hnil : cs.filterMap callConfirm = [] := by
    rwa [lastConfirmed, List.getLast?_eq_none_iff] at h
  simp [lastConfirmed, List.filterMap_append, hnil]

theorem lastConfirmed_append_of_eq_some (pre cs : List NetCall) (t : String)
    (h : lastConfirmed cs = some t) :
    lastConfirmed (pre ++ cs) = some t := by
  have hne : cs.filterMap callConfirm ≠ [] := by
    intro hnil
    rw [lastConfirmed, hnil] at h
    cases h
  rw [lastConfirmed, List.filterMap_append,
    List.getLast?_append_of_ne_nil _ hne]
  exact h

theorem StepOk_cons {tm : TokenManager} {r : TokenManager × List NetCall}
    {now : Nat} {c : NetCall} (hc : callConfirm c = none)
    (h : StepOk tm r now) : StepOk tm (r.1, c :: r.2) now := by
  rcases h with ⟨h1, h2, h3⟩ | ⟨t, h1, h2, h3⟩
  · left
    refine ⟨h1, h2, ?_⟩
    dsimp only
    rw [lastConfirmed_cons_none hc]
    exact h3
  · right
    refine ⟨t, h1, h2, ?_⟩
    dsimp only
    rw [lastConfirmed_cons_none hc]
    exact h3

theorem probeSecondary_stepOk (tm : TokenManager) (a : Attempt) :
    StepOk tm (probeSecondary tm a) a.now := by
  obtain ⟨ss1, ss2, ss3⟩ := probeSecondary_spec tm a
  by_cases h1 : truthy tm.tokens.secondary = true
  · cases h2 : validateToken a.httpGet (tm.tokens.secondary.getD "") with
    | true =>
        right
        refine ⟨tm.tokens.secondary.getD "", ?_, ?_, ?_⟩
        · rw [ss1 h1 h2]
          exact truthy_eq_some h1
        · rw [ss1 h1 h2]
        · rw [ss1 h1 h2]
          rfl
    | false =>
        left
        rw [ss2 h1 h2]
        exact ⟨rfl, rfl, Or.inl rfl⟩
  · rw [Bool.not_eq_true] at h1
    left
    rw [ss3 h1]
    exact ⟨rfl, rfl, Or.inl rfl⟩

theorem probeStatics_stepOk (tm : TokenManager) (a : Attempt) :
    StepOk tm (probeStatics tm a) a.now := by
  obtain ⟨ps1, ps2, ps3⟩ := probeStatics_spec tm a
  by_cases h1 : truthy tm.tokens.primary = true
  · cases h2 : validateToken a.httpGet (tm.tokens.primary.getD "") with
    | true =>
        right
        refine ⟨tm.tokens.primary.getD "", ?_, ?_, ?_⟩
        · rw [ps1 h1 h2]
          exact truthy_eq_some h1
        · rw [ps1 h1 h2]
        · rw [ps1 h1 h2]
          rfl
    | false =>
        rw [ps2 h1 h2]
        exact StepOk_cons rfl (probeSecondary_stepOk tm a)
  · rw [Bool.not_eq_true] at h1
    rw [ps3 h1]
    exact probeSecondary_stepOk tm a

theorem fallbackStatic_stepOk (tm : TokenManager) (a : Attempt) :
    StepOk tm (fallbackStatic tm a) a.now := by
  obtain ⟨fs1, fs2, fs3⟩ := fallbackStatic_spec tm a
    (if tm.currentToken == tm.tokens.primary then tm.tokens.secondary
      else tm.tokens.primary) rfl
  by_cases h1 : truthy (if tm.currentToken == tm.tokens.primary
      then tm.tokens.secondary else tm.tokens.primary) = true
  · cases h2 : validateToken a.httpGet
        ((if tm.currentToken == tm.tokens.primary then tm.tokens.secondary
          else tm.tokens.primary).getD "") with
    | true =>
        right
        refine ⟨(if tm.currentToken == tm.tokens.primary then tm.tokens.secondary
            else tm.tokens.primary).getD "", ?_, ?_, ?_⟩
        · rw [fs1 h1 h2]
          exact truthy_eq_some h1
        · rw [fs1 h1 h2]
        · rw [fs1 h1 h2]
          rfl
    | false =>
        left
        rw [fs2 h1 h2]
        exact ⟨rfl, rfl, Or.inl rfl⟩
  · rw [Bool.not_eq_true] at h1
    left
    rw [fs3 h1]
    exact ⟨rfl, rfl, Or.inl rfl⟩

theorem tryRotate_stepOk (tm : TokenManager) (a : Attempt) :
    StepOk tm (tryRotate tm a) a.now := by
  by_cases hcc : (truthy tm.clientCredentials.clientId
      && truthy tm.clientCredentials.clientSecret) = true
  · cases hE : generateNewToken tm.clientCredentials a.genHttp with
    | ok t =>
        right
        refine ⟨t, ?_, ?_, ?_⟩ <;> simp [tryRotate, hcc, hE, lastConfirmed, callConfirm]
    | error e =>
        have heq : tryRotate tm a
            = ((fallbackStatic tm a).1,
               NetCall.generateCall none :: (fallbackStatic tm a).2) := by
          simp [tryRotate, hcc, hE]
        rw [heq]
        exact StepOk_cons rfl (fallbackStatic_stepOk tm a)
  · rw [Bool.not_eq_true] at hcc
    have heq : tryRotate tm a = fallbackStatic tm a := by
      simp [tryRotate, hcc]
    rw [heq]
    exact fallbackStatic_stepOk tm a

theorem checkCurrent_spec (tm : TokenManager) (a : Attempt) :
    (truthy tm.currentToken = true →
      validateToken a.httpGet (tm.currentToken.getD "") = true →
      checkCurrent tm a
        = (tm, [NetCall.validateCall (tm.currentToken.getD "") true]))
    ∧ (truthy tm.currentToken = true →
      validateToken a.httpGet (tm.currentToken.getD "") = false →
      checkCurrent tm a
        = ((tryRotate tm a).1,
           NetCall.validateCall (tm.currentToken.getD "") false
             :: (tryRotate tm a).2))
    ∧ (truthy tm.currentToken = false →
      checkCurrent tm a = probeStatics tm a) := by
  refine ⟨fun h1 h2 => ?_, fun h1 h2 => ?_, fun h1 => ?_⟩
  · simp only [checkCurrent]
    simp [h1, h2]
  · simp only [checkCurrent]
    simp [h1, h2]
  · simp only [checkCurrent]
    simp [h1]

theorem checkCurrent_stepOk (tm : TokenManager) (a : Attempt) :
    StepOk tm (checkCurrent tm a) a.now := by
  obtain ⟨cc1, cc2, cc3⟩ := checkCurrent_spec tm a
  by_cases h1 : truthy tm.currentToken = true
  · cases h2 : validateToken a.httpGet (tm.currentToken.getD "") with
    | true =>
        left
        rw [cc1 h1 h2]
        refine ⟨rfl, rfl, Or.inr ?_⟩
        show some (tm.currentToken.getD "") = tm.currentToken
        exact (truthy_eq_some h1).symm
    | false =>
        rw [cc2 h1 h2]
        exact StepOk_cons rfl (tryRotate_stepOk tm a)
  · rw [Bool.not_eq_true] at h1
    rw [cc3 h1]
    exact probeStatics_stepOk tm a

theorem rotateBody_stepOk (tm : TokenManager) (a : Attempt) :
    StepOk tm (rotateBody tm a) a.now := by
  by_cases hc1 : (!truthy tm.currentToken
      && truthy tm.clientCredentials.clientId
      && truthy tm.clientCredentials.clientSecret) = true
  · cases hE : generateNewToken tm.clientCredentials a.genHttp with
    | ok t =>
        right
        refine ⟨t, ?_, ?_, ?_⟩ <;> simp [rotateBody, hc1, hE, lastConfirmed, callConfirm]
    | error e =>
        have heq : rotateBody tm a
            = ((checkCurrent tm a).1,
               NetCall.generateCall none :: (checkCurrent tm a).2) := by
          simp [rotateBody, hc1, hE]
        rw [heq]
        exact StepOk_cons rfl (checkCurrent_stepOk tm a)
  · rw [Bool.not_eq_true] at hc1
    have heq : rotateBody tm a = checkCurrent tm a := by
      simp [rotateBody, hc1]
    rw [heq]
    exact checkCurrent_stepOk tm a

theorem rotateToken_stepOk (tm : TokenManager) (a : Attempt) :
    StepOk tm (rotateToken tm a) a.now := by
  by_cases h : tm.isRotating = true
  · left
    refine ⟨?_, ?_, Or.inl ?_⟩ <;> simp [rotateToken, h, lastConfirmed]
  · rw [Bool.not_eq_true] at h
    have heq : rotateToken tm a
        = ({ (rotateBody { tm with isRotating := true } a).1 with
              isRotating := false },
           (rotateBody { tm with isRotating := true } a).2) := by
      simp [rotateToken, h]
    rcases rotateBody_stepOk { tm with isRotating := true } a with
      ⟨h1, h2, h3⟩ | ⟨t, h1, h2, h3⟩
    · left
      rw [heq]
      exact ⟨h1, h2, h3⟩
    · right
      rw [heq]
      exact ⟨t, h1, h2, h3⟩

theorem initGenStep_stepOk (tm : TokenManager) (g : Option (Nat × String))
    (n : Nat) : StepOk tm (initGenStep tm g n) n := by
  cases hE : generateNewToken tm.clientCredentials g with
  | ok t =>
      right
      refine ⟨t, ?_, ?_, ?_⟩ <;> simp [initGenStep, hE, lastConfirmed, callConfirm]
  | error e =>
      left
      refine ⟨?_, ?_, Or.inl ?_⟩ <;> simp [initGenStep, hE, lastConfirmed, callConfirm]

theorem step_stepOk (tm : TokenManager) (st : ProcStep) :
    StepOk tm (step tm st) (stepTime st) := by
  cases st with
  | rotate a => exact rotateToken_stepOk tm a
  | initGen g n => exact initGenStep_stepOk tm g n

/-- C7: `lastRotation` moves only with a confirmed adoption. For every
process step (a timer-driven or manual rotation attempt, or the completion
of the background initial generation), if the step changes `lastRotation`,
then the step ends with `currentToken` set to a token `t` that the step's
own most recent confirming network call issued or validated, and the new
`lastRotation` is the step's time. Contrapositively, a step on which a held
token merely re-validates, or on which validation/generation fails without
an adoption, never changes `lastRotation`. -/
theorem lastRotation_only_on_confirmed_adoption (tm : TokenManager)
    (st : ProcStep)
    (h : (step tm st).1.lastRotation ≠ tm.lastRotation) :
    ∃ t, (step tm st).1.currentToken = some t
      ∧ lastConfirmed (step tm st).2 = some t
      ∧ (step tm st).1.lastRotation = stepTime st := by
  rcases step_stepOk tm st with ⟨h1, h2, h3⟩ | ⟨t, h1, h2, h3⟩
  · exact absurd h2 h
  · exact ⟨t, h1, h3, h2⟩

/-- C7 witness: a rotation attempt that adopts the secondary static token
changes `lastRotation` (from 3 to 9), and indeed it ends with a confirmed
`currentToken`. -/
theorem lastRotation_only_on_confirmed_adoption_witness :
    ∃ t, (step tmNoTok (ProcStep.rotate attOkS)).1.currentToken = some t
      ∧ lastConfirmed (step tmNoTok (ProcStep.rotate attOkS)).2 = some t
      ∧ (step tmNoTok (ProcStep.rotate attOkS)).1.lastRotation
          = stepTime (ProcStep.rotate attOkS) :=
  lastRotation_only_on_confirmed_adoption tmNoTok (ProcStep.rotate attOkS)
    (by decide)

theorem run_inv (steps : List ProcStep) :
    ∀ (tm : TokenManager) (hist : List NetCall) (seed : Option String),
    (∀ u, tm.currentToken = some u →
      lastConfirmed hist = some u ∨ seed = some u) →
    ∀ t, (run tm steps).currentToken = some t →
      lastConfirmed (hist ++ runCalls tm steps) = some t ∨ seed = some t := by
  induction steps with
  | nil =>
      intro tm hist seed hInv t ht
      simp only [runCalls, List.append_nil]
      simp only [run] at ht
      exact hInv t ht
  | cons st rest ih =>
      intro tm hist seed hInv t ht
      simp only [run] at ht
      simp only [runCalls]
      rw [← List.append_assoc]
      refine ih (step tm st).1 (hist ++ (step tm st).2) seed ?_ t ht
      intro u hu
      rcases step_stepOk tm st with ⟨h1, h2, h3⟩ | ⟨v, h1, h2, h3⟩
      · rw [h1] at hu
        rcases h3 with hnone | heq
        · rw [lastConfirmed_append_of_eq_none _ _ hnone]
          exact hInv u hu
        · rw [hu] at heq
          exact Or.inl (lastConfirmed_append_of_eq_some _ _ _ heq)
      · rw [h1] at hu
        injection hu with hv
        subst hv
        exact Or.inl (lastConfirmed_append_of_eq_some _ _ _ h3)

/-- C8 counterexample: at process start with `PRIMARY_TOKEN = "tok-A"`
configured, the constructor seeds `currentToken = "tok-A"` although no
network call — no issuance, no validation — has occurred (the call history
is empty, so there is no "last token that was issued or validated"). The
claim, which quantifies over every point of the process lifetime, fails at
this point. -/
theorem currentToken_confirmed_counterexample :
    (run (mkTokenManager envSeed 0) []).currentToken = some "tok-A"
    ∧ lastConfirmed (runCalls (mkTokenManager envSeed 0) []) = none :=
  ⟨rfl, rfl⟩

/-- C8 amended: at every point in the process lifetime (the constructor
followed by any sequence of rotation attempts and background initial
generation), when `currentToken` is set its value is either the last token
that was issued by the Generator or passed Validator confirmation, or it is
the configured primary token with which the constructor seeded
`currentToken` without confirmation. -/
theorem currentToken_confirmed_or_initial_seed (env : Env) (now0 : Nat)
    (steps : List ProcStep) (t : String)
    (h : (run (mkTokenManager env now0) steps).currentToken = some t) :
    lastConfirmed (runCalls (mkTokenManager env now0) steps) = some t
    ∨ env.PORT_API_TOKEN_PRIMARY = some t := by
  have hInv : ∀ u, (mkTokenManager env now0).currentToken = some u →
      lastConfirmed ([] : List NetCall) = some u
      ∨ env.PORT_API_TOKEN_PRIMARY = some u := by
    intro u hu
    exact Or.inr hu
  have hmain := run_inv steps (mkTokenManager env now0) []
    env.PORT_API_TOKEN_PRIMARY hInv t h
  rwa [List.nil_append] at hmain

/-- C8 witness (amended claim): at process start with only the primary
token configured, the held `"tok-A"` is accounted for by the seed
disjunct. -/
theorem currentToken_confirmed_or_initial_seed_witness :
    lastConfirmed (runCalls (mkTokenManager envSeed 0) []) = some "tok-A"
    ∨ envSeed.PORT_API_TOKEN_PRIMARY = some "tok-A" :=
  currentToken_confirmed_or_initial_seed envSeed 0 [] "tok-A" rfl
